import Mathlib

/-!
Verification development for the accounting core of the bond-investment
platform, shallowly embedded from `contracts/BondToken.sol`.

Modelling conventions:
* `uint256` quantities are modelled as `Nat`.  Solidity 0.8 arithmetic
  reverts on overflow/underflow instead of wrapping; a reverted call
  leaves the contract state unchanged, which in this model is the same
  as the call not occurring, so unbounded `Nat` arithmetic is faithful
  on every state an operation actually produces.
* Addresses are modelled as `Nat`; `msg.sender` becomes an explicit
  `sender` argument and `block.timestamp` an explicit `now` argument.
* A `require(cond, msg)` failure reverts the whole call; each external
  function therefore returns `Except String _` whose `error` carries
  the revert string and whose `ok` carries the post-state (and, for
  `claimInterest`/`redeem`, the stablecoin amount paid out).
* The stablecoin `transfer`/`transferFrom` calls move an external token
  whose pool is out of scope here; a failed token transfer reverts the
  whole call, indistinguishable from the call never happening, so the
  model treats those transfers as succeeding.
* The OpenZeppelin-internal ERC-20 total supply counter is not modelled
  (no code under verification reads it); the contract's own
  `bondInfo.totalSupply` field is modelled exactly.
-/

namespace BondToken

/-- Mirror of `struct BondInfo` (BondToken.sol lines 16-26). -/
structure BondInfo where
  bondName : String
  issuer : String
  faceValue : Nat
  couponRate : Nat
  maturityDate : Nat
  issueDate : Nat
  lastInterestPayment : Nat
  totalSupply : Nat
  isActive : Bool

/-- Contract storage of `BondToken`: the bond metadata, the `Ownable`
owner, the inherited ERC-20 balances (`balanceOf`), and the two
per-investor mappings `investments` and `claimedInterest`
(BondToken.sol lines 28-37). -/
structure State where
  bondInfo : BondInfo
  owner : Nat
  balances : Nat → Nat
  investments : Nat → Nat
  claimedInterest : Nat → Nat

/-- Solidity `365 days`, in seconds. -/
def secondsPerYear : Nat := 365 * 86400

/-- The inherited ERC-20 `balanceOf`. -/
def balanceOf (s : State) (account : Nat) : Nat :=
  s.balances account

/-- The constructor (BondToken.sol lines 44-65): records the bond terms,
stamps `issueDate` and `lastInterestPayment` with the deployment time,
starts with zero supply and `isActive = true`. -/
def deployBond (bondName issuer : String)
    (faceValue couponRate maturityDate deployer now : Nat) : State :=
  { bondInfo :=
      { bondName := bondName
        issuer := issuer
        faceValue := faceValue
        couponRate := couponRate
        maturityDate := maturityDate
        issueDate := now
        lastInterestPayment := now
        totalSupply := 0
        isActive := true }
    owner := deployer
    balances := fun _ => 0
    investments := fun _ => 0
    claimedInterest := fun _ => 0 }

/-- `invest` (BondToken.sol lines 71-93): requires the bond active, not
yet matured, and a positive amount; pulls the stablecoins, mints tokens
1:1, and bumps `investments[msg.sender]` and `bondInfo.totalSupply`. -/
def invest (s : State) (sender stablecoinAmount now : Nat) :
    Except String State :=
  if s.bondInfo.isActive = true then
    if now < s.bondInfo.maturityDate then
      if 0 < stablecoinAmount then
        let tokensToMint := stablecoinAmount
        Except.ok
          { s with
            balances := fun a =>
              if a = sender then s.balances sender + tokensToMint
              else s.balances a
            investments := fun a =>
              if a = sender then s.investments sender + stablecoinAmount
              else s.investments a
            bondInfo :=
              { s.bondInfo with
                totalSupply := s.bondInfo.totalSupply + tokensToMint } }
      else Except.error "Investment amount must be greater than 0"
    else Except.error "Bond has matured"
  else Except.error "Bond is no longer accepting investments"

/-- `calculateAccruedInterest` (BondToken.sol lines 100-113): zero for an
empty balance; otherwise `timeElapsed = block.timestamp -
bondInfo.lastInterestPayment`, `annualInterest = balance * couponRate /
10000`, `accrued = annualInterest * timeElapsed / 365 days`. -/
def calculateAccruedInterest (s : State) (investor now : Nat) : Nat :=
  let balance := balanceOf s investor
  if balance = 0 then 0
  else
    let timeElapsed := now - s.bondInfo.lastInterestPayment
    let annualInterest := balance * s.bondInfo.couponRate / 10000
    let accruedInterest := annualInterest * timeElapsed / secondsPerYear
    accruedInterest

/-- The interest formula of lines 109-110 as a pure function of balance,
coupon rate and elapsed seconds: divide by 10000 first, then prorate
with a second truncating division. -/
def accrualFormula (balance couponRate timeElapsed : Nat) : Nat :=
  balance * couponRate / 10000 * timeElapsed / secondsPerYear

/-- The accrual value the specification prescribes, written from the
spec's words: all multiplications before a single truncating division,
`(P * R * E) / (10000 * 365 * 86400)`.  Kept separate from
`accrualFormula` so the two policies can be compared. -/
def singleTruncationAccrued (principal couponRate elapsedSeconds : Nat) : Nat :=
  principal * couponRate * elapsedSeconds / (10000 * secondsPerYear)

/-- `claimInterest` (BondToken.sol lines 118-137): requires a nonzero
token balance and a positive accrued amount; resets the bond-wide
`lastInterestPayment` to `now`, adds the amount to
`claimedInterest[msg.sender]`, and pays it out. -/
def claimInterest (s : State) (sender now : Nat) :
    Except String (State × Nat) :=
  if 0 < balanceOf s sender then
    let interestAmount := calculateAccruedInterest s sender now
    if 0 < interestAmount then
      Except.ok
        ({ s with
            bondInfo :=
              { s.bondInfo with lastInterestPayment := now }
            claimedInterest := fun a =>
              if a = sender then s.claimedInterest sender + interestAmount
              else s.claimedInterest a },
          interestAmount)
    else Except.error "No interest to claim"
  else Except.error "No bond tokens held"

/-- `redeem` (BondToken.sol lines 143-160): requires maturity reached and
a nonzero token balance; burns the whole balance and pays it out 1:1 in
stablecoins.  Nothing else in storage is touched. -/
def redeem (s : State) (sender now : Nat) :
    Except String (State × Nat) :=
  if s.bondInfo.maturityDate ≤ now then
    if 0 < balanceOf s sender then
      let tokenBalance := balanceOf s sender
      let redemptionAmount := tokenBalance
      Except.ok
        ({ s with
            balances := fun a =>
              if a = sender then s.balances sender - tokenBalance
              else s.balances a },
          redemptionAmount)
    else Except.error "No tokens to redeem"
  else Except.error "Bond has not matured yet"

/-- `closeBond` (BondToken.sol lines 190-192): owner-only; clears
`isActive`. -/
def closeBond (s : State) (sender : Nat) : Except String State :=
  if sender = s.owner then
    Except.ok { s with bondInfo := { s.bondInfo with isActive := false } }
  else Except.error "Ownable: caller is not the owner"

/-- The inherited OpenZeppelin ERC-20 `transfer` (part of BondToken's
public interface): requires nonzero endpoints and sufficient balance,
then moves `amount` from `sender` to `recipient` (the two sequential
mapping writes of `_transfer` are written here as one map update). -/
def transfer (s : State) (sender recipient amount : Nat) : Except String State :=
  if sender = 0 then Except.error "ERC20: transfer from the zero address"
  else if recipient = 0 then Except.error "ERC20: transfer to the zero address"
  else if amount ≤ s.balances sender then
    Except.ok
      { s with
        balances := fun a =>
          if a = recipient then
            (if recipient = sender then s.balances sender - amount
             else s.balances recipient) + amount
          else if a = sender then s.balances sender - amount
          else s.balances a }
  else Except.error "ERC20: transfer amount exceeds balance"

/-- One call at BondToken's state-changing public interface. -/
inductive Op where
  | invest (sender amount now : Nat)
  | claimInterest (sender now : Nat)
  | redeem (sender now : Nat)
  | closeBond (sender : Nat)
  | transfer (sender recipient amount : Nat)

/-- The `msg.sender` of an operation. -/
def Op.sender : Op → Nat
  | .invest a _ _ => a
  | .claimInterest a _ => a
  | .redeem a _ => a
  | .closeBond a => a
  | .transfer a _ _ => a

/-- Run one operation against the state, discarding any payout. -/
def execOp (s : State) : Op → Except String State
  | .invest sender amount now => invest s sender amount now
  | .claimInterest sender now =>
      match claimInterest s sender now with
      | Except.ok p => Except.ok p.1
      | Except.error e => Except.error e
  | .redeem sender now =>
      match redeem s sender now with
      | Except.ok p => Except.ok p.1
      | Except.error e => Except.error e
  | .closeBond sender => closeBond s sender
  | .transfer sender recipient amount => transfer s sender recipient amount

/-- EVM revert semantics: a failed call leaves the state unchanged. -/
def step (s : State) (op : Op) : State :=
  match execOp s op with
  | Except.ok s' => s'
  | Except.error _ => s

/-- Run a sequence of calls, each reverting on failure. -/
def execTrace (s : State) : List Op → State
  | [] => s
  | op :: rest => execTrace (step s op) rest

/-! ### Concrete example states used as test inputs -/

/-- A bond with a 50% coupon (5000 basis points) and a single investor
(address 2) holding a balance of 1: the smallest state on which the
two-division rounding of the code visibly differs from the
single-truncation policy. -/
def sC1 : State :=
  { bondInfo :=
      { bondName := "T-Bond 2030", issuer := "Treasury", faceValue := 1000000
        couponRate := 5000, maturityDate := 100000000, issueDate := 0
        lastInterestPayment := 0, totalSupply := 1, isActive := true }
    owner := 1
    balances := fun a => if a = 2 then 1 else 0
    investments := fun a => if a = 2 then 1 else 0
    claimedInterest := fun _ => 0 }

/-- A running bond (5% coupon, maturity at time 100, accrual clock at 0)
with investor 2 holding 1000 and investor 3 holding 2000. -/
def exState : State :=
  { bondInfo :=
      { bondName := "GB-2030", issuer := "Gov", faceValue := 1000000
        couponRate := 500, maturityDate := 100, issueDate := 0
        lastInterestPayment := 0, totalSupply := 3000, isActive := true }
    owner := 1
    balances := fun a => if a = 2 then 1000 else if a = 3 then 2000 else 0
    investments := fun a => if a = 2 then 1000 else if a = 3 then 2000 else 0
    claimedInterest := fun _ => 0 }

/-- A freshly deployed bond (maturity 1000, deployed by owner 1 at time
0) used for whole-trace counterexamples. -/
def s3 : State := deployBond "B" "G" 1000000 500 1000 1 0

/-- A bond with a long maturity (5% coupon, investor 2 holding 1000,
accrual clock at 0) for mid-life scenarios. -/
def sC2 : State :=
  { bondInfo :=
      { bondName := "T-Bond 2030", issuer := "Treasury", faceValue := 1000000
        couponRate := 500, maturityDate := 100000000, issueDate := 0
        lastInterestPayment := 0, totalSupply := 1000, isActive := true }
    owner := 1
    balances := fun a => if a = 2 then 1000 else 0
    investments := fun a => if a = 2 then 1000 else 0
    claimedInterest := fun _ => 0 }

/-- The state after investor 2 adds 500 to `exState` at time 50. -/
def investedEx : State :=
  (invest exState 2 500 50).toOption.getD exState

/-- The state and payout after investor 2 claims interest on `exState`
at time 31536000 (one year). -/
def claimedEx : State × Nat :=
  (claimInterest exState 2 31536000).toOption.getD (exState, 0)

/-- The state and payout after investor 2 redeems from `exState` at time
63072000 (two years, past the maturity date 100). -/
def redeemedEx : State × Nat :=
  (redeem exState 2 63072000).toOption.getD (exState, 0)

/-- The state after the owner closes `exState` for new investment. -/
def closedEx : State :=
  (closeBond exState 1).toOption.getD exState

/-! ### Basic characterisations of the operations -/

/-- `calculateAccruedInterest` always agrees with the pure formula of
lines 109-110 applied to the investor's balance and the elapsed time
since the bond-wide `lastInterestPayment` (the guard for an empty
balance is absorbed, since the formula is zero there anyway). -/
theorem calculateAccruedInterest_eq (s : State) (investor now : Nat) :
    calculateAccruedInterest s investor now =
      accrualFormula (s.balances investor) s.bondInfo.couponRate
        (now - s.bondInfo.lastInterestPayment) := by
  unfold calculateAccruedInterest accrualFormula balanceOf
  by_cases h : s.balances investor = 0
  · simp [h]
  · simp [h]

theorem accrualFormula_zero_elapsed (balance couponRate : Nat) :
    accrualFormula balance couponRate 0 = 0 := by
  simp [accrualFormula]

theorem accrualFormula_zero_balance (couponRate timeElapsed : Nat) :
    accrualFormula 0 couponRate timeElapsed = 0 := by
  simp [accrualFormula]

theorem accrualFormula_mono_elapsed (balance couponRate : Nat)
    {e e' : Nat} (h : e ≤ e') :
    accrualFormula balance couponRate e ≤ accrualFormula balance couponRate e' := by
  unfold accrualFormula
  exact Nat.div_le_div_right (Nat.mul_le_mul_left _ h)

theorem accrualFormula_mono_balance {p p' : Nat} (couponRate timeElapsed : Nat)
    (h : p ≤ p') :
    accrualFormula p couponRate timeElapsed ≤ accrualFormula p' couponRate timeElapsed := by
  unfold accrualFormula
  exact Nat.div_le_div_right
    (Nat.mul_le_mul_right _ (Nat.div_le_div_right (Nat.mul_le_mul_right _ h)))

/-- The early division by 10000 can only lose value relative to the
single-truncation policy. -/
theorem accrualFormula_le_singleTruncation (p r e : Nat) :
    accrualFormula p r e ≤ singleTruncationAccrued p r e := by
  unfold accrualFormula singleTruncationAccrued
  rw [← Nat.div_div_eq_div_mul]
  refine Nat.div_le_div_right ?_
  have h1 : p * r / 10000 * e * 10000 ≤ p * r * e := by
    calc p * r / 10000 * e * 10000 = p * r / 10000 * 10000 * e := by ring
    _ ≤ p * r * e := Nat.mul_le_mul_right _ (Nat.div_mul_le_self _ _)
  exact (Nat.le_div_iff_mul_le (by norm_num)).mpr h1

/-- Full characterisation of a successful `invest`. -/
theorem invest_ok_iff (s : State) (sender amount now : Nat) (s' : State) :
    invest s sender amount now = Except.ok s' ↔
      s.bondInfo.isActive = true ∧ now < s.bondInfo.maturityDate ∧ 0 < amount ∧
      s' = { s with
        balances := fun a =>
          if a = sender then s.balances sender + amount else s.balances a
        investments := fun a =>
          if a = sender then s.investments sender + amount else s.investments a
        bondInfo :=
          { s.bondInfo with totalSupply := s.bondInfo.totalSupply + amount } } := by
  unfold invest
  split_ifs with h1 h2 h3
  · simp only [Except.ok.injEq]
    exact ⟨fun h => ⟨h1, h2, h3, h.symm⟩, fun h => h.2.2.2.symm⟩
  · exact iff_of_false (fun h => h) (fun h => h3 h.2.2.1)
  · exact iff_of_false (fun h => h) (fun h => h2 h.2.1)
  · exact iff_of_false (fun h => h) (fun h => h1 h.1)

/-- Full characterisation of a successful `claimInterest`. -/
theorem claimInterest_ok_iff (s : State) (sender now : Nat) (p : State × Nat) :
    claimInterest s sender now = Except.ok p ↔
      0 < s.balances sender ∧ 0 < calculateAccruedInterest s sender now ∧
      p = ({ s with
              bondInfo := { s.bondInfo with lastInterestPayment := now }
              claimedInterest := fun a =>
                if a = sender then
                  s.claimedInterest sender + calculateAccruedInterest s sender now
                else s.claimedInterest a },
            calculateAccruedInterest s sender now) := by
  unfold claimInterest balanceOf
  by_cases h1 : 0 < s.balances sender
  · rw [if_pos h1]
    show (if 0 < calculateAccruedInterest s sender now then _ else _) = _ ↔ _
    by_cases h2 : 0 < calculateAccruedInterest s sender now
    · rw [if_pos h2]
      simp only [Except.ok.injEq]
      exact ⟨fun h => ⟨h1, h2, h.symm⟩, fun h => h.2.2.symm⟩
    · rw [if_neg h2]
      exact iff_of_false (by intro h; injection h) (fun h => h2 h.2.1)
  · rw [if_neg h1]
    exact iff_of_false (by intro h; injection h) (fun h => h1 h.1)

/-- Full characterisation of a successful `redeem`. -/
theorem redeem_ok_iff (s : State) (sender now : Nat) (p : State × Nat) :
    redeem s sender now = Except.ok p ↔
      s.bondInfo.maturityDate ≤ now ∧ 0 < s.balances sender ∧
      p = ({ s with
              balances := fun a =>
                if a = sender then 0 else s.balances a },
            s.balances sender) := by
  unfold redeem balanceOf
  split_ifs with h1 h2
  · simp only [Except.ok.injEq, Nat.sub_self]
    exact ⟨fun h => ⟨h1, h2, h.symm⟩, fun h => h.2.2.symm⟩
  · exact iff_of_false (fun h => h) (fun h => h2 h.2.1)
  · exact iff_of_false (fun h => h) (fun h => h1 h.1)

/-- Full characterisation of a successful `closeBond`. -/
theorem closeBond_ok_iff (s : State) (sender : Nat) (s' : State) :
    closeBond s sender = Except.ok s' ↔
      sender = s.owner ∧
      s' = { s with bondInfo := { s.bondInfo with isActive := false } } := by
  unfold closeBond
  split_ifs with h1
  · simp only [Except.ok.injEq]
    exact ⟨fun h => ⟨h1, h.symm⟩, fun h => h.2.symm⟩
  · exact iff_of_false (fun h => h) (fun h => h1 h.1)

/-- Full characterisation of a successful ERC-20 `transfer`. -/
theorem transfer_ok_iff (s : State) (sender recipient amount : Nat) (s' : State) :
    transfer s sender recipient amount = Except.ok s' ↔
      sender ≠ 0 ∧ recipient ≠ 0 ∧ amount ≤ s.balances sender ∧
      s' = { s with
        balances := fun a =>
          if a = recipient then
            (if recipient = sender then s.balances sender - amount
             else s.balances recipient) + amount
          else if a = sender then s.balances sender - amount
          else s.balances a } := by
  unfold transfer
  by_cases h1 : sender = 0
  · rw [if_pos h1]
    exact iff_of_false (by intro h; injection h) (fun h => h.1 h1)
  · rw [if_neg h1]
    by_cases h2 : recipient = 0
    · rw [if_pos h2]
      exact iff_of_false (by intro h; injection h) (fun h => h.2.1 h2)
    · rw [if_neg h2]
      by_cases h3 : amount ≤ s.balances sender
      · rw [if_pos h3]
        simp only [Except.ok.injEq]
        exact ⟨fun h => ⟨h1, h2, h3, h.symm⟩, fun h => h.2.2.2.symm⟩
      · rw [if_neg h3]
        exact iff_of_false (by intro h; injection h) (fun h => h3 h.2.2.1)

end BondToken

namespace BondToken

/-! ### Frame lemmas about `step` and `execTrace` -/

/-- No operation ever changes the bond terms (name, issuer, face value,
coupon rate, maturity date, issue date) or the owner; only
`lastInterestPayment`, `totalSupply` and `isActive` are ever written. -/
theorem step_frame (s : State) (op : Op) :
    (step s op).bondInfo.couponRate = s.bondInfo.couponRate ∧
    (step s op).bondInfo.maturityDate = s.bondInfo.maturityDate ∧
    (step s op).owner = s.owner := by
  cases op <;>
    simp only [step, execOp, invest, claimInterest, redeem, closeBond,
      transfer, balanceOf] <;>
    split_ifs <;> exact ⟨rfl, rfl, rfl⟩

/-- Once `isActive` is cleared, no operation sets it again. -/
theorem step_isActive_false (s : State) (op : Op)
    (h : s.bondInfo.isActive = false) :
    (step s op).bondInfo.isActive = false := by
  cases op <;>
    simp only [step, execOp, invest, claimInterest, redeem, closeBond,
      transfer, balanceOf] <;>
    split_ifs <;> first | rfl | exact h

/-- Only `invest` writes `investments` or `bondInfo.totalSupply`. -/
theorem step_investments_frame (s : State) (op : Op)
    (hop : ∀ sender amount now, op ≠ Op.invest sender amount now) :
    (step s op).investments = s.investments ∧
    (step s op).bondInfo.totalSupply = s.bondInfo.totalSupply := by
  cases op with
  | invest sender amount now => exact absurd rfl (hop sender amount now)
  | _ =>
    simp only [step, execOp, claimInterest, redeem, closeBond,
      transfer, balanceOf]
    split_ifs <;> exact ⟨rfl, rfl⟩

/-- Bumping one entry of a map adds the delta to its sum over any
finite set containing the key. -/
theorem sum_if_eq_add (A : Finset Nat) (f : Nat → Nat) (x v : Nat) (hx : x ∈ A) :
    (A.sum fun a => if a = x then f x + v else f a) = A.sum f + v := by
  rw [← Finset.add_sum_erase A (fun a => if a = x then f x + v else f a) hx,
      ← Finset.add_sum_erase A f hx]
  have h1 : ((A.erase x).sum fun a => if a = x then f x + v else f a)
      = (A.erase x).sum f :=
    Finset.sum_congr rfl fun a ha => if_neg (Finset.ne_of_mem_erase ha)
  rw [h1, if_pos rfl]
  show f x + v + (A.erase x).sum f = f x + (A.erase x).sum f + v
  omega

/-- One step preserves `totalSupply = Σ investments` over any address
universe `A` containing the caller: `invest` adds the same amount to
both sides, and no other operation touches either. -/
theorem step_totalSupply_sum (A : Finset Nat) (s : State) (op : Op)
    (hop : op.sender ∈ A)
    (h : s.bondInfo.totalSupply = A.sum s.investments) :
    (step s op).bondInfo.totalSupply = A.sum (step s op).investments := by
  cases op with
  | invest sender amount now =>
    have hstep : step s (Op.invest sender amount now) =
        match invest s sender amount now with
        | Except.ok s' => s'
        | Except.error _ => s := rfl
    rw [hstep]
    cases hex : invest s sender amount now with
    | error e => exact h
    | ok s' =>
      rw [invest_ok_iff] at hex
      obtain ⟨-, -, -, rfl⟩ := hex
      have hsender : sender ∈ A := hop
      calc (s.bondInfo.totalSupply + amount : Nat)
          = A.sum s.investments + amount := by rw [h]
        _ = A.sum fun a =>
              if a = sender then s.investments sender + amount
              else s.investments a :=
            (sum_if_eq_add A s.investments sender amount hsender).symm
  | claimInterest sender now =>
    have hf := step_investments_frame s (Op.claimInterest sender now)
      (fun a b c h' => Op.noConfusion h')
    rw [hf.1, hf.2]; exact h
  | redeem sender now =>
    have hf := step_investments_frame s (Op.redeem sender now)
      (fun a b c h' => Op.noConfusion h')
    rw [hf.1, hf.2]; exact h
  | closeBond sender =>
    have hf := step_investments_frame s (Op.closeBond sender)
      (fun a b c h' => Op.noConfusion h')
    rw [hf.1, hf.2]; exact h
  | transfer sender recipient amount =>
    have hf := step_investments_frame s (Op.transfer sender recipient amount)
      (fun a b c h' => Op.noConfusion h')
    rw [hf.1, hf.2]; exact h

/-- Along any trace whose callers all lie in `A`, the recorded
`bondInfo.totalSupply` stays equal to the sum of the cumulative
`investments` mapping over `A`. -/
theorem execTrace_totalSupply_sum (A : Finset Nat) (ops : List Op)
    (hops : ∀ op ∈ ops, op.sender ∈ A) (s : State)
    (h : s.bondInfo.totalSupply = A.sum s.investments) :
    (execTrace s ops).bondInfo.totalSupply =
      A.sum (execTrace s ops).investments := by
  induction ops generalizing s with
  | nil => exact h
  | cons op rest ih =>
    rw [execTrace]
    exact ih (fun o ho => hops o (List.mem_cons_of_mem _ ho)) _
      (step_totalSupply_sum A s op (hops op (List.mem_cons_self _ _)) h)

/-- `maturityDate` is constant along any trace. -/
theorem execTrace_maturityDate (ops : List Op) (s : State) :
    (execTrace s ops).bondInfo.maturityDate = s.bondInfo.maturityDate := by
  induction ops generalizing s with
  | nil => rfl
  | cons op rest ih =>
      rw [execTrace, ih, (step_frame s op).2.1]

/-- Once closed for investment, a bond stays closed along any trace. -/
theorem execTrace_isActive_false (ops : List Op) (s : State)
    (h : s.bondInfo.isActive = false) :
    (execTrace s ops).bondInfo.isActive = false := by
  induction ops generalizing s with
  | nil => exact h
  | cons op rest ih =>
      rw [execTrace]
      exact ih _ (step_isActive_false s op h)

end BondToken

namespace BondToken

/-! ### Claims -/

/-- Claim C1, counterexample.  The claim says the accrued-interest
computation returns the single-truncation value `(P * R * E) / (10000 *
365 * 86400)` for every principal, rate and elapsed time.  On `sC1`
(balance 1, coupon 5000 basis points, elapsed two years) the code's
two-division computation returns 0 while the single-truncation value is
1: the code divides by 10000 *before* multiplying by the elapsed time
(BondToken.sol lines 109-110), so the rounding differs. -/
theorem claim_C1_counterexample :
    calculateAccruedInterest sC1 2 63072000 = 0 ∧
    singleTruncationAccrued (sC1.balances 2) sC1.bondInfo.couponRate
      (63072000 - sC1.bondInfo.lastInterestPayment) = 1 ∧
    calculateAccruedInterest sC1 2 63072000 ≠
      singleTruncationAccrued (sC1.balances 2) sC1.bondInfo.couponRate
        (63072000 - sC1.bondInfo.lastInterestPayment) :=
  ⟨by decide, by decide, by decide⟩

/-- Claim C1, amended.  The computation truncates twice, not once: it
always equals `accrualFormula`, i.e. `((P * R) / 10000) * E /
(365 * 86400)` applied to the investor's balance and the time elapsed
since the bond-wide `lastInterestPayment` — a deterministic pure
function of the state, but one that is bounded above by (and can fall
strictly below) the single-truncation value the spec prescribes. -/
theorem claim_C1_amended :
    (∀ (s : State) (investor now : Nat),
        calculateAccruedInterest s investor now =
          accrualFormula (s.balances investor) s.bondInfo.couponRate
            (now - s.bondInfo.lastInterestPayment)) ∧
    (∀ p r e, accrualFormula p r e ≤ singleTruncationAccrued p r e) :=
  ⟨calculateAccruedInterest_eq, accrualFormula_le_singleTruncation⟩

/-- Claim C2, counterexample.  The claim says a successful `invest` on a
position with nonzero principal first credits the interest accrued on
the old principal into `claimedInterest` and resets the accrual
timestamp to `now`.  On `sC2` (balance 1000, 5% coupon, clock at 0) an
invest of 500 at time 8640000 (100 days) succeeds with 13 units of
interest accrued on the old principal, yet leaves `claimedInterest` at
0 (not 0 + 13) and the accrual timestamp at 0 (not 8640000): the code's
`invest` performs no realisation at all. -/
theorem claim_C2_counterexample :
    (invest sC2 2 500 8640000).map
        (fun s' => (s'.claimedInterest 2, s'.bondInfo.lastInterestPayment,
          s'.balances 2)) =
      Except.ok (0, 0, 1500) ∧
    calculateAccruedInterest sC2 2 8640000 = 13 ∧
    sC2.claimedInterest 2 = 0 ∧
    sC2.bondInfo.lastInterestPayment = 0 ∧
    (0 : Nat) ≠ 0 + 13 ∧
    (0 : Nat) ≠ 8640000 :=
  ⟨by rfl, by decide, by rfl, by rfl, by decide, by decide⟩

/-- Claim C2, amended.  A successful `invest` only mints and updates the
investment tallies: it leaves `claimedInterest` and the bond-wide
accrual timestamp untouched (no realize-then-add step exists), so
afterwards the *enlarged* principal accrues retroactively from the old
`lastInterestPayment`, at any query time `t`. -/
theorem claim_C2_amended (s : State) (sender amount now t : Nat)
    (hA : s.bondInfo.isActive = true) (hM : now < s.bondInfo.maturityDate)
    (h0 : 0 < amount) :
    invest s sender amount now = Except.ok
      { s with
        balances := fun a =>
          if a = sender then s.balances sender + amount else s.balances a
        investments := fun a =>
          if a = sender then s.investments sender + amount else s.investments a
        bondInfo :=
          { s.bondInfo with totalSupply := s.bondInfo.totalSupply + amount } } ∧
    calculateAccruedInterest
      { s with
        balances := fun a =>
          if a = sender then s.balances sender + amount else s.balances a
        investments := fun a =>
          if a = sender then s.investments sender + amount else s.investments a
        bondInfo :=
          { s.bondInfo with totalSupply := s.bondInfo.totalSupply + amount } }
      sender t =
      accrualFormula (s.balances sender + amount) s.bondInfo.couponRate
        (t - s.bondInfo.lastInterestPayment) := by
  constructor
  · rw [invest_ok_iff]
    exact ⟨hA, hM, h0, rfl⟩
  · rw [calculateAccruedInterest_eq]
    dsimp only
    rw [if_pos rfl]

/-- Witness for the amended claim C2 at the concrete state `sC2`. -/
theorem claim_C2_amended_witness :
    invest sC2 2 500 8640000 = Except.ok
      { sC2 with
        balances := fun a =>
          if a = 2 then sC2.balances 2 + 500 else sC2.balances a
        investments := fun a =>
          if a = 2 then sC2.investments 2 + 500 else sC2.investments a
        bondInfo :=
          { sC2.bondInfo with totalSupply := sC2.bondInfo.totalSupply + 500 } } ∧
    calculateAccruedInterest
      { sC2 with
        balances := fun a =>
          if a = 2 then sC2.balances 2 + 500 else sC2.balances a
        investments := fun a =>
          if a = 2 then sC2.investments 2 + 500 else sC2.investments a
        bondInfo :=
          { sC2.bondInfo with totalSupply := sC2.bondInfo.totalSupply + 500 } }
      2 17280000 =
      accrualFormula (sC2.balances 2 + 500) sC2.bondInfo.couponRate
        (17280000 - sC2.bondInfo.lastInterestPayment) :=
  claim_C2_amended sC2 2 500 8640000 17280000 rfl (by decide) (by decide)

/-- Claim C3, counterexample.  The claim says `bondInfo.totalSupply`
equals the sum of all investors' position principals in every reachable
state, including immediately after each redeem.  Starting from a fresh
bond, investor 2 invests 100 at time 5 and redeems (successfully, with
payout 100) at time 1000: afterwards `bondInfo.totalSupply` is still
100 while every balance is 0 (address 2 is the only address ever
touched and `deployBond` zero-initialises all balances), because
`redeem` burns tokens without decrementing `bondInfo.totalSupply`. -/
theorem claim_C3_counterexample :
    (redeem (execTrace s3 [Op.invest 2 100 5]) 2 1000).map (fun p => p.2) =
      Except.ok 100 ∧
    (execTrace s3 [Op.invest 2 100 5, Op.redeem 2 1000]).bondInfo.totalSupply
      = 100 ∧
    Finset.sum {2}
      (execTrace s3 [Op.invest 2 100 5, Op.redeem 2 1000]).balances = 0 ∧
    (100 : Nat) ≠ 0 :=
  ⟨by rfl, by decide, by decide, by decide⟩

/-- Claim C3, amended.  The conservation law the code actually
maintains: along every trace of public operations whose callers lie in
a finite address universe `A`, the recorded `bondInfo.totalSupply`
equals the sum over `A` of the *cumulative* `investments` mapping (the
total principal ever raised).  It stops matching the sum of live token
balances at the first redeem, as the counterexample shows. -/
theorem claim_C3_amended (A : Finset Nat)
    (bondName issuer : String)
    (faceValue couponRate maturityDate deployer t0 : Nat)
    (ops : List Op) (hops : ∀ op ∈ ops, op.sender ∈ A) :
    (execTrace
        (deployBond bondName issuer faceValue couponRate maturityDate deployer t0)
        ops).bondInfo.totalSupply =
      A.sum (execTrace
        (deployBond bondName issuer faceValue couponRate maturityDate deployer t0)
        ops).investments := by
  apply execTrace_totalSupply_sum A ops hops
  simp [deployBond]

/-- Witness for the amended claim C3 on a concrete two-operation trace. -/
theorem claim_C3_amended_witness :
    (execTrace (deployBond "B" "G" 1000000 500 1000 1 0)
        [Op.invest 2 100 5, Op.redeem 2 1000]).bondInfo.totalSupply =
      Finset.sum {2, 3}
        (execTrace (deployBond "B" "G" 1000000 500 1000 1 0)
          [Op.invest 2 100 5, Op.redeem 2 1000]).investments :=
  claim_C3_amended {2, 3} "B" "G" 1000000 500 1000 1 0
    [Op.invest 2 100 5, Op.redeem 2 1000] (by decide)

/-- Claim C4, confirmed.  The accrual clock is the single bond-wide
field `bondInfo.lastInterestPayment`: when investor `a` successfully
claims at time `t`, the clock is reset to `t` for the whole bond, the
other investor `b`'s balance and claimed interest are untouched, and
`b`'s accrued interest at any later `now` is computed over `now - t`
only — at most what it would have been before `a`'s claim, with the
interval from the old clock value up to `t` no longer claimable. -/
theorem claim_C4_shared_clock (s : State) (a b t now : Nat)
    (hab : b ≠ a)
    (hbalA : 0 < s.balances a)
    (hacc : 0 < calculateAccruedInterest s a t)
    (hlip : s.bondInfo.lastInterestPayment ≤ t) ( _ht : t ≤ now) :
    ((claimInterest s a t).map fun p => p.1.bondInfo.lastInterestPayment) =
      Except.ok t ∧
    ((claimInterest s a t).map fun p => p.1.balances b) =
      Except.ok (s.balances b) ∧
    ((claimInterest s a t).map fun p => p.1.claimedInterest b) =
      Except.ok (s.claimedInterest b) ∧
    ((claimInterest s a t).map fun p => calculateAccruedInterest p.1 b now) =
      Except.ok (accrualFormula (s.balances b) s.bondInfo.couponRate (now - t)) ∧
    accrualFormula (s.balances b) s.bondInfo.couponRate (now - t) ≤
      calculateAccruedInterest s b now := by
  have hok : claimInterest s a t = Except.ok
      ({ s with
          bondInfo := { s.bondInfo with lastInterestPayment := t }
          claimedInterest := fun x =>
            if x = a then s.claimedInterest a + calculateAccruedInterest s a t
            else s.claimedInterest x },
        calculateAccruedInterest s a t) :=
    (claimInterest_ok_iff s a t _).mpr ⟨hbalA, hacc, rfl⟩
  rw [hok]
  refine ⟨rfl, rfl, ?_, ?_, ?_⟩
  · simp [Except.map, if_neg hab]
  · simp only [Except.map]
    rw [calculateAccruedInterest_eq]
  · rw [calculateAccruedInterest_eq]
    exact accrualFormula_mono_elapsed _ _ (Nat.sub_le_sub_left hlip now)

/-- Witness for claim C4 at `exState`: investor 2 claims at one year,
investor 3 queries at two years. -/
theorem claim_C4_shared_clock_witness :
    ((claimInterest exState 2 31536000).map
        fun p => p.1.bondInfo.lastInterestPayment) = Except.ok 31536000 ∧
    ((claimInterest exState 2 31536000).map fun p => p.1.balances 3) =
      Except.ok (exState.balances 3) ∧
    ((claimInterest exState 2 31536000).map fun p => p.1.claimedInterest 3) =
      Except.ok (exState.claimedInterest 3) ∧
    ((claimInterest exState 2 31536000).map
        fun p => calculateAccruedInterest p.1 3 63072000) =
      Except.ok (accrualFormula (exState.balances 3) exState.bondInfo.couponRate
        (63072000 - 31536000)) ∧
    accrualFormula (exState.balances 3) exState.bondInfo.couponRate
        (63072000 - 31536000) ≤
      calculateAccruedInterest exState 3 63072000 :=
  claim_C4_shared_clock exState 2 3 31536000 63072000 (by decide) (by decide)
    (by decide) (by decide) (by decide)

/-- Claim C5, counterexample.  The claim says `redeem` first realizes
the remaining accrued interest into `claimedInterest` exactly as
`claimInterest` would, before paying out the principal.  On `exState`
at time 63072000 the accrued interest is 100, yet the successful redeem
pays out exactly the 1000 principal while leaving `claimedInterest` at
0 (not 0 + 100) and the accrual clock at 0: no realisation happens, and
the accrued interest is simply lost. -/
theorem claim_C5_counterexample :
    (redeem exState 2 63072000).map
        (fun p => (p.2, p.1.claimedInterest 2,
          p.1.bondInfo.lastInterestPayment, p.1.balances 2)) =
      Except.ok (1000, 0, 0, 0) ∧
    calculateAccruedInterest exState 2 63072000 = 100 ∧
    exState.claimedInterest 2 = 0 ∧
    (0 : Nat) ≠ 0 + 100 :=
  ⟨by rfl, by decide, by rfl, by decide⟩

/-- Claim C5, amended.  A successful `redeem` (bond matured, positive
balance) pays out exactly the pre-reset token balance — principal only
— and zeroes that balance, but performs *no* interest realisation:
`claimedInterest` and the whole `bondInfo` (including the accrual
clock) are unchanged, and the unclaimed accrued interest becomes 0
(forfeited) since the post-redeem balance is 0. -/
theorem claim_C5_amended (s : State) (sender now t : Nat)
    (hmat : s.bondInfo.maturityDate ≤ now) (hbal : 0 < s.balances sender) :
    redeem s sender now = Except.ok
      ({ s with
          balances := fun a => if a = sender then 0 else s.balances a },
        s.balances sender) ∧
    calculateAccruedInterest
      { s with balances := fun a => if a = sender then 0 else s.balances a }
      sender t = 0 := by
  constructor
  · rw [redeem_ok_iff]
    exact ⟨hmat, hbal, rfl⟩
  · rw [calculateAccruedInterest_eq]
    dsimp only
    rw [if_pos rfl]
    exact accrualFormula_zero_balance _ _

/-- Witness for the amended claim C5 at `exState`. -/
theorem claim_C5_amended_witness :
    redeem exState 2 63072000 = Except.ok
      ({ exState with
          balances := fun a => if a = 2 then 0 else exState.balances a },
        exState.balances 2) ∧
    calculateAccruedInterest
      { exState with
          balances := fun a => if a = 2 then 0 else exState.balances a }
      2 94608000 = 0 :=
  claim_C5_amended exState 2 63072000 94608000 (by decide) (by decide)

end BondToken

namespace BondToken

/-- Claim C6, confirmed.  After a successful redeem the position's token
balance is 0, and any later redeem (`now ≤ now₂`) fails with the
zero-balance revert "No tokens to redeem", leaving the state unchanged
(a revert has no effect).  The protection is structural: it is the
`balanceOf(msg.sender) > 0` require that fails, not a separate flag. -/
theorem claim_C6_no_double_redeem (s : State) (sender now now₂ : Nat)
    (hmat : s.bondInfo.maturityDate ≤ now) (hbal : 0 < s.balances sender)
    (hseq : now ≤ now₂) :
    ((redeem s sender now).map fun p => p.2) = Except.ok (s.balances sender) ∧
    ((redeem s sender now).map fun p => p.1.balances sender) = Except.ok 0 ∧
    ((redeem s sender now).map fun p => redeem p.1 sender now₂) =
      Except.ok (Except.error "No tokens to redeem") := by
  have hok : redeem s sender now = Except.ok
      ({ s with
          balances := fun a => if a = sender then 0 else s.balances a },
        s.balances sender) :=
    (redeem_ok_iff s sender now _).mpr ⟨hmat, hbal, rfl⟩
  rw [hok]
  refine ⟨rfl, by simp [Except.map], ?_⟩
  simp only [Except.map]
  unfold redeem balanceOf
  rw [if_pos (le_trans hmat hseq)]
  rw [if_neg (by simp)]

/-- Witness for claim C6 at `exState`, redeeming at two years and
retrying one second later. -/
theorem claim_C6_no_double_redeem_witness :
    ((redeem exState 2 63072000).map fun p => p.2) =
      Except.ok (exState.balances 2) ∧
    ((redeem exState 2 63072000).map fun p => p.1.balances 2) =
      Except.ok 0 ∧
    ((redeem exState 2 63072000).map fun p => redeem p.1 2 63072001) =
      Except.ok (Except.error "No tokens to redeem") :=
  claim_C6_no_double_redeem exState 2 63072000 63072001 (by decide) (by decide)
    (by decide)

/-- Claim C7, confirmed.  If `claimInterest` succeeds at time `now`, the
first call credits the computed amount into the caller's
`claimedInterest`; a second call at the same `now` computes zero
accrued interest (zero elapsed time) and fails with "No interest to
claim" — and since a revert leaves no trace, the position state stays
exactly as the first call left it. -/
theorem claim_C7_idempotent_claim (s : State) (sender now : Nat)
    (hbal : 0 < s.balances sender)
    (hacc : 0 < calculateAccruedInterest s sender now) :
    ((claimInterest s sender now).map fun p => p.1.claimedInterest sender) =
      Except.ok (s.claimedInterest sender + calculateAccruedInterest s sender now) ∧
    ((claimInterest s sender now).map
        fun p => calculateAccruedInterest p.1 sender now) = Except.ok 0 ∧
    ((claimInterest s sender now).map fun p => claimInterest p.1 sender now) =
      Except.ok (Except.error "No interest to claim") := by
  have hok : claimInterest s sender now = Except.ok
      ({ s with
          bondInfo := { s.bondInfo with lastInterestPayment := now }
          claimedInterest := fun x =>
            if x = sender then
              s.claimedInterest sender + calculateAccruedInterest s sender now
            else s.claimedInterest x },
        calculateAccruedInterest s sender now) :=
    (claimInterest_ok_iff s sender now _).mpr ⟨hbal, hacc, rfl⟩
  have hzero : calculateAccruedInterest
      { s with
          bondInfo := { s.bondInfo with lastInterestPayment := now }
          claimedInterest := fun x =>
            if x = sender then
              s.claimedInterest sender + calculateAccruedInterest s sender now
            else s.claimedInterest x }
      sender now = 0 := by
    rw [calculateAccruedInterest_eq]
    dsimp only
    rw [Nat.sub_self]
    exact accrualFormula_zero_elapsed _ _
  rw [hok]
  refine ⟨by simp [Except.map], ?_, ?_⟩
  · simp only [Except.map]
    rw [hzero]
  · simp only [Except.map]
    unfold claimInterest balanceOf
    dsimp only
    rw [if_pos hbal, hzero]
    rfl

/-- Witness for claim C7 at `exState`, claiming twice at one year. -/
theorem claim_C7_idempotent_claim_witness :
    ((claimInterest exState 2 31536000).map fun p => p.1.claimedInterest 2) =
      Except.ok (exState.claimedInterest 2 +
        calculateAccruedInterest exState 2 31536000) ∧
    ((claimInterest exState 2 31536000).map
        fun p => calculateAccruedInterest p.1 2 31536000) = Except.ok 0 ∧
    ((claimInterest exState 2 31536000).map
        fun p => claimInterest p.1 2 31536000) =
      Except.ok (Except.error "No interest to claim") :=
  claim_C7_idempotent_claim exState 2 31536000 (by decide) (by decide)

/-- Claim C8, confirmed.  Lifecycle: (1) once `isActive` is false no
later `invest` can succeed — along any continuation trace it reverts
with the closed-bond message, since no operation ever re-activates the
bond; (2) once the supplied time has reached the (immutable) maturity
date, `invest` reverts with one of its two guard messages along any
trace; (3) `claimInterest` is indifferent to `isActive` and to the
maturity date, so claiming on existing positions stays valid after both
transitions (same payout or same revert); (4) `closeBond` is
idempotent: a second application by the same caller succeeds and
returns the state unchanged. -/
theorem claim_C8_lifecycle :
    (∀ (s : State) (ops : List Op) (sender amount now : Nat),
        s.bondInfo.isActive = false →
        invest (execTrace s ops) sender amount now =
          Except.error "Bond is no longer accepting investments") ∧
    (∀ (s : State) (ops : List Op) (sender amount now : Nat),
        s.bondInfo.maturityDate ≤ now →
        invest (execTrace s ops) sender amount now =
            Except.error "Bond is no longer accepting investments" ∨
        invest (execTrace s ops) sender amount now =
            Except.error "Bond has matured") ∧
    (∀ (s : State) (b : Bool) (m sender now : Nat),
        ((claimInterest
            { s with bondInfo :=
                { s.bondInfo with isActive := b, maturityDate := m } }
            sender now).map Prod.snd) =
          ((claimInterest s sender now).map Prod.snd)) ∧
    (∀ (s : State) (sender : Nat) (s' : State),
        closeBond s sender = Except.ok s' →
        closeBond s' sender = Except.ok s') := by
  refine ⟨?_, ?_, ?_, ?_⟩
  · intro s ops sender amount now h
    unfold invest
    rw [if_neg (by simp [execTrace_isActive_false ops s h])]
  · intro s ops sender amount now h
    unfold invest
    by_cases hact : (execTrace s ops).bondInfo.isActive = true
    · right
      rw [if_pos hact, if_neg]
      have hm := execTrace_maturityDate ops s
      omega
    · left
      rw [if_neg hact]
  · intro s b m sender now
    have hcalc : calculateAccruedInterest
        { s with bondInfo :=
            { s.bondInfo with isActive := b, maturityDate := m } }
        sender now = calculateAccruedInterest s sender now := rfl
    unfold claimInterest balanceOf
    dsimp only
    rw [hcalc]
    by_cases h1 : 0 < s.balances sender
    · rw [if_pos h1, if_pos h1]
      by_cases h2 : 0 < calculateAccruedInterest s sender now
      · rw [if_pos h2, if_pos h2]
        rfl
      · rw [if_neg h2, if_neg h2]
    · rw [if_neg h1, if_neg h1]
  · intro s sender s' h
    rw [closeBond_ok_iff] at h
    obtain ⟨h1, rfl⟩ := h
    rw [closeBond_ok_iff]
    exact ⟨h1, rfl⟩

/-- Witness for claim C8: part (1) on the closed state `closedEx` after
an intervening trace, part (2) on `exState` at its maturity instant,
part (3) at concrete flags, part (4) re-closing `closedEx`. -/
theorem claim_C8_lifecycle_witness :
    invest (execTrace closedEx [Op.claimInterest 2 5]) 2 50 7 =
      Except.error "Bond is no longer accepting investments" ∧
    (invest (execTrace exState []) 2 50 100 =
        Except.error "Bond is no longer accepting investments" ∨
      invest (execTrace exState []) 2 50 100 =
        Except.error "Bond has matured") ∧
    ((claimInterest
        { exState with bondInfo :=
            { exState.bondInfo with isActive := false, maturityDate := 7 } }
        2 31536000).map Prod.snd) =
      ((claimInterest exState 2 31536000).map Prod.snd) ∧
    closeBond closedEx 1 = Except.ok closedEx :=
  ⟨claim_C8_lifecycle.1 closedEx [Op.claimInterest 2 5] 2 50 7 (by rfl),
    claim_C8_lifecycle.2.1 exState [] 2 50 100 (by decide),
    claim_C8_lifecycle.2.2.1 exState false 7 2 31536000,
    claim_C8_lifecycle.2.2.2 exState 1 closedEx (by rfl)⟩

/-- Claim C9, confirmed.  The accrual formula of lines 109-110 is
monotonically non-decreasing in the elapsed time and in the principal,
and yields 0 at zero elapsed time. -/
theorem claim_C9_accrual_monotone (p p' r e e' : Nat)
    ( _hr : r ≤ 10000) (hp : p ≤ p') (he : e ≤ e') :
    accrualFormula p r e ≤ accrualFormula p r e' ∧
    accrualFormula p r e ≤ accrualFormula p' r e ∧
    accrualFormula p r 0 = 0 :=
  ⟨accrualFormula_mono_elapsed p r he, accrualFormula_mono_balance r e hp,
    accrualFormula_zero_elapsed p r⟩

/-- Witness for claim C9 at concrete values. -/
theorem claim_C9_accrual_monotone_witness :
    accrualFormula 1000 500 31536000 ≤ accrualFormula 1000 500 63072000 ∧
    accrualFormula 1000 500 31536000 ≤ accrualFormula 2000 500 31536000 ∧
    accrualFormula 1000 500 0 = 0 :=
  claim_C9_accrual_monotone 1000 2000 500 31536000 63072000 (by decide)
    (by decide) (by decide)

/-- Claim C10, counterexample.  The claim says every public operation of
the bond token other than `invest` and a single `redeem` leaves every
position's principal (the token balance on which interest accrues)
unchanged.  But BondToken is an ERC-20, so the inherited public
`transfer` is part of its interface: on `exState` a transfer of 400
from investor 2 to investor 3 succeeds and changes both balances (1000
to 600 and 2000 to 2400), moving the accrual base between positions. -/
theorem claim_C10_counterexample :
    (transfer exState 2 3 400).map
        (fun s' => (s'.balances 2, s'.balances 3)) =
      Except.ok (600, 2400) ∧
    exState.balances 2 = 1000 ∧
    exState.balances 3 = 2000 ∧
    (600 : Nat) ≠ 1000 ∧
    (2400 : Nat) ≠ 2000 :=
  ⟨by rfl, by rfl, by rfl, by decide, by decide⟩

/-- Claim C10, amended.  Among the bond's own operations the frame
property does hold: a successful `invest` adds exactly the invested
amount to the caller's balance and no one else's; `claimInterest`
leaves the whole balance map unchanged; a successful `redeem` zeroes
the caller's balance and no one else's; `closeBond` leaves the balance
map unchanged (and the view functions are pure).  The inherited ERC-20
`transfer`, however, also rewrites balances, as the counterexample
shows, so the full public interface does not preserve principal. -/
theorem claim_C10_amended :
    (∀ (s : State) (sender amount now : Nat) (s' : State) (b : Nat),
        invest s sender amount now = Except.ok s' →
        s'.balances sender = s.balances sender + amount ∧
        (b ≠ sender → s'.balances b = s.balances b)) ∧
    (∀ (s : State) (sender now : Nat) (p : State × Nat),
        claimInterest s sender now = Except.ok p →
        p.1.balances = s.balances) ∧
    (∀ (s : State) (sender now : Nat) (p : State × Nat) (b : Nat),
        redeem s sender now = Except.ok p →
        p.1.balances sender = 0 ∧
        (b ≠ sender → p.1.balances b = s.balances b)) ∧
    (∀ (s : State) (sender : Nat) (s' : State),
        closeBond s sender = Except.ok s' → s'.balances = s.balances) := by
  refine ⟨?_, ?_, ?_, ?_⟩
  · intro s sender amount now s' b h
    rw [invest_ok_iff] at h
    obtain ⟨-, -, -, rfl⟩ := h
    exact ⟨by simp, fun hb => by simp [if_neg hb]⟩
  · intro s sender now p h
    rw [claimInterest_ok_iff] at h
    obtain ⟨-, -, rfl⟩ := h
    rfl
  · intro s sender now p b h
    rw [redeem_ok_iff] at h
    obtain ⟨-, -, rfl⟩ := h
    exact ⟨by simp, fun hb => by simp [if_neg hb]⟩
  · intro s sender s' h
    rw [closeBond_ok_iff] at h
    obtain ⟨-, rfl⟩ := h
    rfl

/-- Witness for the amended claim C10, instantiating each part on
`exState` with its concrete post-states. -/
theorem claim_C10_amended_witness :
    (investedEx.balances 2 = exState.balances 2 + 500 ∧
      ((3 : Nat) ≠ 2 → investedEx.balances 3 = exState.balances 3)) ∧
    claimedEx.1.balances = exState.balances ∧
    (redeemedEx.1.balances 2 = 0 ∧
      ((3 : Nat) ≠ 2 → redeemedEx.1.balances 3 = exState.balances 3)) ∧
    closedEx.balances = exState.balances :=
  ⟨claim_C10_amended.1 exState 2 500 50 investedEx 3 (by rfl),
    claim_C10_amended.2.1 exState 2 31536000 claimedEx (by rfl),
    claim_C10_amended.2.2.1 exState 2 63072000 redeemedEx 3 (by rfl),
    claim_C10_amended.2.2.2 exState 1 closedEx (by rfl)⟩

end BondToken
